import Mathlib

/-!
Shallow embedding of the MCP tool server (src/src/index.ts and
src/app/api/[transport]/route.ts).  Both files register the same six tool
handlers (greet, calc, now, geocode, get-weather, generate-image); their
handler bodies are line-for-line identical, so a single embedding covers both.

Effectful inputs of the handlers (the upstream HTTP outcome, the process
environment, the current instant) are passed as explicit parameters, so each
handler is a total Lean function from its validated arguments and its
environment to the `ToolResult` it returns.
-/

namespace MCP

/-- One unit of a tool's output: tagged as text or image, mirroring the
`{type: 'text', text}` and `{type: 'image', data, mimeType}` objects built by
the handlers. -/
inductive ContentItem where
  | text (s : String)
  | image (data : String) (mimeType : String)
deriving DecidableEq, Repr

/-- The uniform response envelope: `{content: [...]}` as returned by every
handler. -/
structure ToolResult where
  content : List ContentItem
deriving DecidableEq, Repr

/-- A JavaScript thrown value as seen by a `catch (error)` block: either an
`Error` object carrying a message, or any other thrown value.  The handlers
compute `error instanceof Error ? error.message : '알 수 없는 오류'`. -/
inductive JsError where
  | error (message : String)
  | nonError
deriving DecidableEq, Repr

/-- The message extraction performed in every catch block of the source. -/
def JsError.toMessage : JsError → String
  | .error m => m
  | .nonError => "알 수 없는 오류"

/-- Outcome of one `fetch` call followed by `response.json()`:
either the fetch threw (network failure), or a response arrived with an HTTP
status whose body parses to `β` or fails to parse. -/
inductive FetchResult (β : Type) where
  | response (status : Nat) (body : Except JsError β)
  | failure (e : JsError)

/-- `Response.ok` of the Fetch API: status in the 2xx range. -/
def responseOk (status : Nat) : Bool := 200 ≤ status && status < 300

/-- The supported greeting languages, the `z.enum(['ko','en','ja','zh','es','fr','de'])`
input schema of `greet`. -/
inductive Language where
  | ko | en | ja | zh | es | fr | de
deriving DecidableEq, Repr

/-- The `greetings` record of the greet handler: a fixed per-language template
substituting `name` verbatim.  The enum schema guarantees the lookup always
hits, so the `?? greetings['en']` fallback is unreachable. -/
def greetingFor (name : String) : Language → String
  | .ko => "안녕하세요, " ++ name ++ "님!"
  | .en => "Hey there, " ++ name ++ "! 👋 Nice to meet you!"
  | .ja => "こんにちは、" ++ name ++ "さん！"
  | .zh => "你好，" ++ name ++ "！"
  | .es => "¡Hola, " ++ name ++ "! ¿Qué tal?"
  | .fr => "Bonjour, " ++ name ++ " ! Enchanté(e) !"
  | .de => "Hallo, " ++ name ++ "! Freut mich!"

/-- The greet handler. -/
def greetHandler (name : String) (language : Language) : ToolResult :=
  { content := [ContentItem.text (greetingFor name language)] }

/-- The `z.enum(['+','-','*','/'])` operator of the calc tool. -/
inductive Operator where
  | plus | minus | times | div
deriving DecidableEq, Repr

/-- The operator symbol as it is interpolated into the output text. -/
def Operator.symbol : Operator → String
  | .plus => "+"
  | .minus => "-"
  | .times => "*"
  | .div => "/"

/-- The `switch (operator)` arithmetic of the calc handler, over an arbitrary
carrier of the source's native number type. -/
def applyOp {F : Type} [Add F] [Sub F] [Mul F] [Div F] (a b : F) : Operator → F
  | .plus => a + b
  | .minus => a - b
  | .times => a * b
  | .div => a / b

/-- The fixed division-by-zero message of the calc handler. -/
def divByZeroText : String := "오류: 0으로 나눌 수 없습니다."

/-- The calc handler, generic over the carrier of the source's number type
(IEEE doubles in JavaScript): the `b === 0` guard in the `'/'` case returns
the fixed error text, every other path computes the native operation and
formats `a operator b = result`. -/
def calcHandler {F : Type} [Add F] [Sub F] [Mul F] [Div F] [Zero F]
    [DecidableEq F] [ToString F] (a b : F) (operator : Operator) : ToolResult :=
  match operator with
  | .div =>
      if b = 0 then
        { content := [ContentItem.text divByZeroText] }
      else
        { content := [ContentItem.text
            (toString a ++ " " ++ Operator.symbol .div ++ " " ++ toString b
              ++ " = " ++ toString (a / b))] }
  | op =>
      { content := [ContentItem.text
          (toString a ++ " " ++ op.symbol ++ " " ++ toString b
            ++ " = " ++ toString (applyOp a b op))] }

/-- A calendar date-time, the information rendered by the
`toLocaleString('ko-KR', ...)` call of the now handler once the current
instant has been resolved in the requested timezone. -/
structure DateTime where
  year : Nat
  month : Nat
  day : Nat
  hour : Nat
  minute : Nat
  second : Nat
deriving DecidableEq, Repr

/-- Two-digit zero padding, the `'2-digit'` rendering option. -/
def pad2 (n : Nat) : String :=
  if n < 10 then "0" ++ toString n else toString n

/-- Modelled rendering of `Date.toLocaleString('ko-KR', {timeZone, year:
'numeric', month/day/hour/minute/second: '2-digit', hour12: false})`: the
ko-KR locale prints `YYYY. MM. DD. HH:MM:SS` with two-digit zero-padded
fields and a 24-hour clock, per the option list in the source. -/
def formatKoKR (dt : DateTime) : String :=
  toString dt.year ++ ". " ++ pad2 dt.month ++ ". " ++ pad2 dt.day ++ ". "
    ++ pad2 dt.hour ++ ":" ++ pad2 dt.minute ++ ":" ++ pad2 dt.second

/-- The invalid-timezone message of the now handler's catch block. -/
def invalidTimezoneText (timezone : String) : String :=
  "오류: \x27" ++ timezone
    ++ "\x27은(는) 유효하지 않은 타임존입니다. IANA 타임존 형식을 사용해주세요. (예: Asia/Seoul, America/New_York)"

/-- The now handler.  `resolved` is the outcome of formatting the current
instant in the requested timezone: `some dt` when the timezone identifier is
valid, `none` when `toLocaleString` throws a `RangeError` (invalid timezone),
which the handler's try/catch converts into the fixed error text. -/
def nowHandler (timezone : String) (resolved : Option DateTime) : ToolResult :=
  match resolved with
  | some dt =>
      { content := [ContentItem.text
          ("[" ++ timezone ++ "] 현재 시간: " ++ formatKoKR dt)] }
  | none =>
      { content := [ContentItem.text (invalidTimezoneText timezone)] }

/-- One record of the Nominatim response array, as typed in the source. -/
structure GeocodeRecord where
  display_name : String
  lat : String
  lon : String
deriving DecidableEq, Repr

/-- The geocode handler's catch-block text. -/
def geocodeErrorText (message : String) : String :=
  "오류: 지오코딩 실패 - " ++ message

/-- The geocode handler's empty-result text. -/
def geocodeNoResultText (query : String) : String :=
  "\x27" ++ query ++ "\x27에 대한 검색 결과가 없습니다."

/-- The three-line success block of the geocode handler, joined with
newlines as in the source's `[...].join('\n')`. -/
def geocodeSuccessText (r : GeocodeRecord) : String :=
  String.intercalate "\n"
    ["📍 " ++ r.display_name,
     "위도(lat): " ++ r.lat,
     "경도(lon): " ++ r.lon]

/-- The geocode handler.  Mirrors the source's try/catch: a thrown fetch is
caught; a non-2xx status throws `API 요청 실패: {status}` which the same
catch converts; a parse failure of `response.json()` is caught; an empty
array yields the no-result text; otherwise only `data[0]` is used. -/
def geocodeHandler (query : String)
    (fetch : FetchResult (List GeocodeRecord)) : ToolResult :=
  match fetch with
  | .failure e =>
      { content := [ContentItem.text (geocodeErrorText e.toMessage)] }
  | .response status body =>
      if responseOk status then
        match body with
        | .error e =>
            { content := [ContentItem.text (geocodeErrorText e.toMessage)] }
        | .ok data =>
            match data with
            | [] =>
                { content := [ContentItem.text (geocodeNoResultText query)] }
            | r :: _ =>
                { content := [ContentItem.text (geocodeSuccessText r)] }
      else
        { content := [ContentItem.text
            (geocodeErrorText ("API 요청 실패: " ++ toString status))] }

/-- The `current` object of the Open-Meteo response, as typed in the source.
JSON numbers are embedded as rationals. -/
structure CurrentWeather where
  time : String
  temperature_2m : ℚ
  relative_humidity_2m : ℚ
  apparent_temperature : ℚ
  weather_code : ℚ
  wind_speed_10m : ℚ
  wind_direction_10m : ℚ
  precipitation : ℚ
deriving DecidableEq, Repr

/-- The `current_units` object of the Open-Meteo response. -/
structure CurrentUnits where
  temperature_2m : String
  relative_humidity_2m : String
  apparent_temperature : String
  wind_speed_10m : String
  precipitation : String
deriving DecidableEq, Repr

/-- The `daily` object of the Open-Meteo response: parallel arrays indexed by
forecast day. -/
structure DailyWeather where
  time : List String
  weather_code : List ℚ
  temperature_2m_max : List ℚ
  temperature_2m_min : List ℚ
  precipitation_sum : List ℚ
  precipitation_probability_max : List ℚ
  wind_speed_10m_max : List ℚ
deriving DecidableEq, Repr

/-- The `daily_units` object of the Open-Meteo response. -/
structure DailyUnits where
  temperature_2m_max : String
  precipitation_sum : String
  wind_speed_10m_max : String
deriving DecidableEq, Repr

/-- The parsed Open-Meteo response, as typed in the source. -/
structure WeatherData where
  timezone : String
  current : CurrentWeather
  current_units : CurrentUnits
  daily : DailyWeather
  daily_units : DailyUnits
deriving DecidableEq, Repr

/-- The `weatherCodes` record: the fixed numeric-code → description table of
the weather handler, in source order. -/
def weatherCodes : List (ℚ × String) :=
  [(0, "맑음 ☀️"),
   (1, "대체로 맑음 🌤️"),
   (2, "부분적으로 흐림 ⛅"),
   (3, "흐림 ☁️"),
   (45, "안개 🌫️"),
   (48, "서리 안개 🌫️"),
   (51, "가벼운 이슬비 🌦️"),
   (53, "이슬비 🌦️"),
   (55, "강한 이슬비 🌦️"),
   (56, "가벼운 착빙성 이슬비 🌧️"),
   (57, "강한 착빙성 이슬비 🌧️"),
   (61, "약한 비 🌧️"),
   (63, "비 🌧️"),
   (65, "강한 비 🌧️"),
   (66, "가벼운 착빙성 비 🌧️"),
   (67, "강한 착빙성 비 🌧️"),
   (71, "약한 눈 🌨️"),
   (73, "눈 🌨️"),
   (75, "강한 눈 🌨️"),
   (77, "싸락눈 🌨️"),
   (80, "약한 소나기 🌦️"),
   (81, "소나기 🌦️"),
   (82, "강한 소나기 🌦️"),
   (85, "약한 눈소나기 🌨️"),
   (86, "강한 눈소나기 🌨️"),
   (95, "뇌우 ⛈️"),
   (96, "약한 우박 뇌우 ⛈️"),
   (99, "강한 우박 뇌우 ⛈️")]

/-- `getWeatherDesc`: table lookup with the `?? unknown ({code})` fallback. -/
def getWeatherDesc (code : ℚ) : String :=
  match weatherCodes.lookup code with
  | some s => s
  | none => "알 수 없음 (" ++ toString code ++ ")"

/-- Rendering of `xs[i]` inside a JS template string for a numeric array:
out-of-range indexing yields `undefined`, which the template prints as the
text `undefined`. -/
def numAt (xs : List ℚ) (i : Nat) : String :=
  match xs[i]? with
  | some v => toString v
  | none => "undefined"

/-- Rendering of `xs[i]` inside a JS template string for a string array. -/
def strAt (xs : List String) (i : Nat) : String :=
  match xs[i]? with
  | some v => v
  | none => "undefined"

/-- `getWeatherDesc(d.weather_code[i])`: an out-of-range index passes
`undefined` to the lookup, which misses and prints `undefined` in the
fallback. -/
def weatherDescAt (codes : List ℚ) (i : Nat) : String :=
  match codes[i]? with
  | some code => getWeatherDesc code
  | none => "알 수 없음 (undefined)"

/-- The i-th daily forecast line pushed by the weather handler's `for` loop. -/
def dailyLine (d : DailyWeather) (du : DailyUnits) (i : Nat) : String :=
  "  " ++ strAt d.time i
    ++ " | " ++ weatherDescAt d.weather_code i
    ++ " | " ++ numAt d.temperature_2m_min i ++ "~" ++ numAt d.temperature_2m_max i
    ++ du.temperature_2m_max
    ++ " | 강수 " ++ numAt d.precipitation_sum i ++ du.precipitation_sum
    ++ " (확률 " ++ numAt d.precipitation_probability_max i ++ "%)"
    ++ " | 최대풍속 " ++ numAt d.wind_speed_10m_max i ++ du.wind_speed_10m_max

/-- The ten fixed lines (header + current block) built before the daily loop. -/
def headerLines (latitude longitude forecast_days : ℚ) (data : WeatherData) :
    List String :=
  ["📍 좌표: " ++ toString latitude ++ ", " ++ toString longitude
     ++ " (" ++ data.timezone ++ ")",
   "",
   "🌡️ 현재 날씨 (" ++ data.current.time ++ ")",
   "  상태: " ++ getWeatherDesc data.current.weather_code,
   "  기온: " ++ toString data.current.temperature_2m
     ++ data.current_units.temperature_2m
     ++ " (체감 " ++ toString data.current.apparent_temperature
     ++ data.current_units.apparent_temperature ++ ")",
   "  습도: " ++ toString data.current.relative_humidity_2m
     ++ data.current_units.relative_humidity_2m,
   "  바람: " ++ toString data.current.wind_speed_10m
     ++ data.current_units.wind_speed_10m
     ++ " (" ++ toString data.current.wind_direction_10m ++ "°)",
   "  강수량: " ++ toString data.current.precipitation
     ++ data.current_units.precipitation,
   "",
   "📅 " ++ toString forecast_days ++ "일 예보:"]

/-- The weather handler's catch-block text. -/
def weatherErrorText (message : String) : String :=
  "오류: 날씨 정보를 가져올 수 없습니다 - " ++ message

/-- The get-weather handler.  The daily loop runs over the length of the
upstream `daily.time` array; the try/catch mirrors the geocode handler. -/
def weatherHandler (latitude longitude forecast_days : ℚ)
    (fetch : FetchResult WeatherData) : ToolResult :=
  match fetch with
  | .failure e =>
      { content := [ContentItem.text (weatherErrorText e.toMessage)] }
  | .response status body =>
      if responseOk status then
        match body with
        | .error e =>
            { content := [ContentItem.text (weatherErrorText e.toMessage)] }
        | .ok data =>
            { content := [ContentItem.text
                (String.intercalate "\n"
                  (headerLines latitude longitude forecast_days data
                    ++ (List.range data.daily.time.length).map
                         (dailyLine data.daily data.daily_units)))] }
      else
        { content := [ContentItem.text
            (weatherErrorText ("API 요청 실패: " ++ toString status))] }

/-- The base64 alphabet used by `Buffer.toString('base64')`. -/
def base64Chars : List Char :=
  "ABCDEFGHIJKLMNOPQRSTUVWXYZabcdefghijklmnopqrstuvwxyz0123456789+/".toList

/-- The base64 digit for a 6-bit value. -/
def b64Char (n : Nat) : Char := base64Chars.getD n "A".front

/-- Standard base64 encoding of a byte sequence with padding, the
`Buffer.from(arrayBuffer).toString('base64')` step of the image handler. -/
def base64Encode : List Nat → String
  | [] => ""
  | [b1] =>
      String.mk [b64Char (b1 / 4), b64Char (b1 % 4 * 16), "=".front, "=".front]
  | [b1, b2] =>
      String.mk [b64Char (b1 / 4), b64Char (b1 % 4 * 16 + b2 / 16),
                 b64Char (b2 % 16 * 4), "=".front]
  | b1 :: b2 :: b3 :: rest =>
      String.mk [b64Char (b1 / 4), b64Char (b1 % 4 * 16 + b2 / 16),
                 b64Char (b2 % 16 * 4 + b3 / 64), b64Char (b3 % 64)]
        ++ base64Encode rest

/-- JS truthiness check `!hfToken` on `process.env.HF_TOKEN`: true when the
variable is unset or set to the empty string. -/
def tokenMissing : Option String → Bool
  | none => true
  | some s => s == ""

/-- The missing-credential message of the generate-image handler. -/
def missingTokenText : String :=
  "오류: HF_TOKEN 환경변수가 설정되지 않았습니다. HuggingFace API를 사용하려면 HF_TOKEN 환경변수를 설정해주세요."

/-- The generate-image handler's catch-block text. -/
def imageErrorText (message : String) : String :=
  "오류: 이미지 생성 실패 - " ++ message

/-- Result of the generate-image handler together with a flag recording
whether the `client.textToImage` call was reached: the credential check
returns before any client is constructed. -/
structure ImageOutcome where
  result : ToolResult
  networkCalled : Bool
deriving DecidableEq, Repr

/-- The generate-image handler.  `hfToken` is `process.env.HF_TOKEN`;
`call` is the outcome of the `textToImage` round trip, yielding the image
bytes on success.  The prompt and step count only parameterize the outbound
call itself. -/
def generateImageHandler (prompt : String) (num_inference_steps : ℚ)
    (hfToken : Option String) (call : Except JsError (List Nat)) :
    ImageOutcome :=
  if tokenMissing hfToken then
    { result := { content := [ContentItem.text missingTokenText] },
      networkCalled := false }
  else
    match call with
    | .ok bytes =>
        { result := { content :=
            [ContentItem.image (base64Encode bytes) "image/png"] },
          networkCalled := true }
    | .error e =>
        { result := { content :=
            [ContentItem.text (imageErrorText e.toMessage)] },
          networkCalled := true }

/-- A primitive JSON argument value as received by the dispatcher before
validation. -/
inductive JsonPrim where
  | num (q : ℚ)
  | str (s : String)
  | boolean (b : Bool)
  | null
deriving DecidableEq, Repr

/-- Embedding of the `forecast_days` input schema
`z.number().min(1).max(16).optional().default(3)`: an omitted argument takes
the declared default 3; a number must satisfy the two range bounds; any
non-number value is rejected.  The `Except.ok` value is exactly what the
handler receives. -/
def parseForecastDays : Option JsonPrim → Except String ℚ
  | none => Except.ok 3
  | some (JsonPrim.num q) =>
      if q < 1 then Except.error "Number must be greater than or equal to 1"
      else if 16 < q then Except.error "Number must be less than or equal to 16"
      else Except.ok q
  | some (JsonPrim.str _) => Except.error "Expected number, received string"
  | some (JsonPrim.boolean _) => Except.error "Expected number, received boolean"
  | some JsonPrim.null => Except.error "Expected number, received null"

/-- A tool result is error-marked when it is a single text item whose text
carries the `오류:` prefix used by every failure path. -/
def IsErrorResult (r : ToolResult) : Prop :=
  ∃ rest, r.content = [ContentItem.text ("오류:" ++ rest)]

/-- A fetch outcome counts as failed when the fetch threw, the status is not
2xx, or the body did not parse: exactly the paths that reach the handler's
catch block. -/
def fetchFailed {β : Type} : FetchResult β → Bool
  | .failure _ => true
  | .response status body =>
      !responseOk status ||
        (match body with
         | .error _ => true
         | .ok _ => false)

/-- Sample upstream weather response used to instantiate the weather
theorems on concrete data: three forecast days, with day three carrying the
out-of-table weather code 100. -/
def sampleWeatherData : WeatherData :=
  { timezone := "Asia/Seoul",
    current :=
      { time := "2024-01-05T12:00", temperature_2m := 5,
        relative_humidity_2m := 40, apparent_temperature := 2,
        weather_code := 0, wind_speed_10m := 10, wind_direction_10m := 270,
        precipitation := 0 },
    current_units :=
      { temperature_2m := "°C", relative_humidity_2m := "%",
        apparent_temperature := "°C", wind_speed_10m := "km/h",
        precipitation := "mm" },
    daily :=
      { time := ["2024-01-05", "2024-01-06", "2024-01-07"],
        weather_code := [0, 61, 100],
        temperature_2m_max := [7, 8, 9],
        temperature_2m_min := [1, 2, 3],
        precipitation_sum := [0, 5, 1],
        precipitation_probability_max := [0, 80, 30],
        wind_speed_10m_max := [15, 20, 18] },
    daily_units :=
      { temperature_2m_max := "°C", precipitation_sum := "mm",
        wind_speed_10m_max := "km/h" } }

/-- Claim C2: the calc handler returns the fixed division-by-zero error text
exactly when the operator is `/` and `b = 0`; in every other case it returns
`a operator b = result` with the result computed by the native arithmetic of
the number carrier.  Stated generically over any carrier of the source's
number type, so it holds in particular for IEEE doubles. -/
theorem calc_division_guard {F : Type} [Add F] [Sub F] [Mul F] [Div F]
    [Zero F] [DecidableEq F] [ToString F] (a b : F) (operator : Operator) :
    (operator = Operator.div ∧ b = 0 →
      calcHandler a b operator = { content := [ContentItem.text divByZeroText] })
    ∧ (¬(operator = Operator.div ∧ b = 0) →
      calcHandler a b operator = { content := [ContentItem.text
        (toString a ++ " " ++ operator.symbol ++ " " ++ toString b ++ " = "
          ++ toString (applyOp a b operator))] }) := by
  constructor
  · rintro ⟨rfl, rfl⟩
    simp [calcHandler]
  · intro h
    cases operator with
    | div =>
        have hb : ¬b = 0 := fun hb => h ⟨rfl, hb⟩
        simp [calcHandler, hb, applyOp, Operator.symbol]
    | plus => rfl
    | minus => rfl
    | times => rfl

/-- Witness for C2: division by zero at `1 / 0` and a normal division at
`6 / 3`, over the rationals. -/
theorem calc_division_guard_witness :
    calcHandler (1 : ℚ) 0 Operator.div =
      { content := [ContentItem.text divByZeroText] }
    ∧ calcHandler (6 : ℚ) 3 Operator.div =
      { content := [ContentItem.text
          (toString (6 : ℚ) ++ " " ++ (Operator.div).symbol ++ " "
            ++ toString (3 : ℚ) ++ " = "
            ++ toString (applyOp (6 : ℚ) 3 Operator.div))] } :=
  ⟨(calc_division_guard (1 : ℚ) 0 Operator.div).1 ⟨rfl, rfl⟩,
   (calc_division_guard (6 : ℚ) 3 Operator.div).2 (by simp)⟩

/-- Claim C6: with the credential token absent from the environment, the
generate-image handler returns the fixed text error naming `HF_TOKEN`, and
the `textToImage` call is never reached — for every prompt, step count, and
would-be upstream outcome. -/
theorem generate_image_missing_token (prompt : String) (steps : ℚ)
    (call : Except JsError (List Nat)) :
    generateImageHandler prompt steps none call =
      { result := { content := [ContentItem.text missingTokenText] },
        networkCalled := false } := rfl

/-- Claim C10: every handler, on every return path, returns a content array
with exactly one item. -/
theorem single_content_item (name : String) (language : Language) (a b : ℚ)
    (operator : Operator) (tz : String) (resolved : Option DateTime)
    (query : String) (gfetch : FetchResult (List GeocodeRecord))
    (lat lon fd steps : ℚ) (wfetch : FetchResult WeatherData)
    (prompt : String) (hfToken : Option String)
    (call : Except JsError (List Nat)) :
    (greetHandler name language).content.length = 1
    ∧ (calcHandler a b operator).content.length = 1
    ∧ (nowHandler tz resolved).content.length = 1
    ∧ (geocodeHandler query gfetch).content.length = 1
    ∧ (weatherHandler lat lon fd wfetch).content.length = 1
    ∧ ((generateImageHandler prompt steps hfToken call).result).content.length = 1 := by
  refine ⟨rfl, ?_, ?_, ?_, ?_, ?_⟩
  · cases operator with
    | div => by_cases hb : b = 0 <;> simp [calcHandler, hb]
    | plus => rfl
    | minus => rfl
    | times => rfl
  · cases resolved <;> rfl
  · cases gfetch with
    | failure e => rfl
    | response status body =>
        by_cases hs : responseOk status = true
        · cases body with
          | error e => simp [geocodeHandler, hs]
          | ok data => cases data <;> simp [geocodeHandler, hs]
        · simp [geocodeHandler, hs]
  · cases wfetch with
    | failure e => rfl
    | response status body =>
        by_cases hs : responseOk status = true
        · cases body with
          | error e => simp [weatherHandler, hs]
          | ok data => simp [weatherHandler, hs]
        · simp [weatherHandler, hs]
  · by_cases ht : tokenMissing hfToken = true
    · simp [generateImageHandler, ht]
    · cases call <;> simp [generateImageHandler, ht]

/-- Claim C9: each handler is a pure function of its validated input and its
explicit environment (upstream outcome, resolved instant, credential), so two
invocations with identical input and identical environment return identical
results. -/
theorem two_run_determinism (name : String) (language : Language) (a b : ℚ)
    (operator : Operator) (tz : String) (r1 r2 : Option DateTime)
    (query : String) (g1 g2 : FetchResult (List GeocodeRecord))
    (lat lon fd steps : ℚ) (w1 w2 : FetchResult WeatherData)
    (prompt : String) (t1 t2 : Option String)
    (c1 c2 : Except JsError (List Nat)) :
    greetHandler name language = greetHandler name language
    ∧ calcHandler a b operator = calcHandler a b operator
    ∧ (r1 = r2 → nowHandler tz r1 = nowHandler tz r2)
    ∧ (g1 = g2 → geocodeHandler query g1 = geocodeHandler query g2)
    ∧ (w1 = w2 → weatherHandler lat lon fd w1 = weatherHandler lat lon fd w2)
    ∧ (t1 = t2 → c1 = c2 →
        generateImageHandler prompt steps t1 c1 =
          generateImageHandler prompt steps t2 c2) := by
  refine ⟨rfl, rfl, fun h => by rw [h], fun h => by rw [h], fun h => by rw [h],
    fun h1 h2 => by rw [h1, h2]⟩

/-- Witness for C9: two identical invocations of each handler on concrete
inputs and a concrete environment agree. -/
theorem two_run_determinism_witness :
    nowHandler "UTC" (some ⟨2024, 1, 5, 14, 3, 9⟩) =
      nowHandler "UTC" (some ⟨2024, 1, 5, 14, 3, 9⟩)
    ∧ geocodeHandler "Seoul" (FetchResult.response 200 (Except.ok [])) =
      geocodeHandler "Seoul" (FetchResult.response 200 (Except.ok []))
    ∧ weatherHandler 37 127 3 (FetchResult.response 200 (Except.ok sampleWeatherData)) =
      weatherHandler 37 127 3 (FetchResult.response 200 (Except.ok sampleWeatherData))
    ∧ generateImageHandler "a cat" 4 (some "tok") (Except.ok [1, 2, 3]) =
      generateImageHandler "a cat" 4 (some "tok") (Except.ok [1, 2, 3]) := by
  have h := two_run_determinism "x" Language.en 1 2 Operator.plus "UTC"
    (some ⟨2024, 1, 5, 14, 3, 9⟩) (some ⟨2024, 1, 5, 14, 3, 9⟩) "Seoul"
    (FetchResult.response 200 (Except.ok []))
    (FetchResult.response 200 (Except.ok [])) 37 127 3 4
    (FetchResult.response 200 (Except.ok sampleWeatherData))
    (FetchResult.response 200 (Except.ok sampleWeatherData)) "a cat"
    (some "tok") (some "tok") (Except.ok [1, 2, 3]) (Except.ok [1, 2, 3])
  exact ⟨h.2.2.1 rfl, h.2.2.2.1 rfl, h.2.2.2.2.1 rfl, h.2.2.2.2.2 rfl rfl⟩

/-- Claim C7: on a valid timezone the now handler returns
`[{timezone}] 현재 시간: {formatted}` where the formatted instant follows the
24-hour, zero-padded `YYYY. MM. DD. HH:MM:SS` layout fixed by the source's
`toLocaleString` options: every 2-digit field of a calendar value below 100
renders with exactly two characters. -/
theorem now_valid_timezone_format (timezone : String) (dt : DateTime) :
    nowHandler timezone (some dt) =
      { content := [ContentItem.text
          ("[" ++ timezone ++ "] 현재 시간: " ++ formatKoKR dt)] }
    ∧ formatKoKR dt =
        toString dt.year ++ ". " ++ pad2 dt.month ++ ". " ++ pad2 dt.day
          ++ ". " ++ pad2 dt.hour ++ ":" ++ pad2 dt.minute ++ ":"
          ++ pad2 dt.second
    ∧ (∀ n, n < 100 → (pad2 n).length = 2) := by
  refine ⟨rfl, rfl, ?_⟩
  decide

/-- Witness for C7: the handler output and field padding at a concrete
timezone and instant. -/
theorem now_valid_timezone_format_witness :
    nowHandler "Asia/Seoul" (some ⟨2024, 1, 5, 14, 3, 9⟩) =
      { content := [ContentItem.text
          ("[" ++ "Asia/Seoul" ++ "] 현재 시간: "
            ++ formatKoKR ⟨2024, 1, 5, 14, 3, 9⟩)] }
    ∧ (pad2 3).length = 2 :=
  ⟨(now_valid_timezone_format "Asia/Seoul" ⟨2024, 1, 5, 14, 3, 9⟩).1,
   (now_valid_timezone_format "Asia/Seoul" ⟨2024, 1, 5, 14, 3, 9⟩).2.2 3
     (by decide)⟩

/-- Counterexample to C8 as stated: the `forecast_days` schema is
`z.number().min(1).max(16)` with no integrality constraint, so the
non-integer value `5/2` passes validation and reaches the handler instead of
failing with `InvalidArguments`. -/
theorem forecast_days_noninteger_accepted :
    (∀ n : ℤ, (5 / 2 : ℚ) ≠ (n : ℚ))
    ∧ parseForecastDays (some (JsonPrim.num (5 / 2))) = Except.ok (5 / 2) := by
  constructor
  · intro n h
    have h2 : (5 : ℚ) = 2 * (n : ℚ) := by
      field_simp at h
      linarith
    have h3 : (5 : ℤ) = 2 * n := by exact_mod_cast h2
    omega
  · have h1 : ¬(5 / 2 : ℚ) < 1 := by norm_num
    have h2 : ¬(16 : ℚ) < 5 / 2 := by norm_num
    simp [parseForecastDays, h1, h2]

/-- Claim C8 as amended: validation rejects every `forecast_days` argument
that is not a number in `[1, 16]` (non-number values and out-of-range numbers
fail; integrality is not checked, so in-range non-integers pass unchanged),
and an omitted argument receives the declared default 3 before the handler
sees it. -/
theorem forecast_days_validation (q : ℚ) (s : String) (b : Bool) :
    parseForecastDays none = Except.ok 3
    ∧ (1 ≤ q → q ≤ 16 →
        parseForecastDays (some (JsonPrim.num q)) = Except.ok q)
    ∧ (q < 1 ∨ 16 < q →
        ∃ e, parseForecastDays (some (JsonPrim.num q)) = Except.error e)
    ∧ (∃ e, parseForecastDays (some (JsonPrim.str s)) = Except.error e)
    ∧ (∃ e, parseForecastDays (some (JsonPrim.boolean b)) = Except.error e)
    ∧ (∃ e, parseForecastDays (some JsonPrim.null) = Except.error e) := by
  refine ⟨rfl, ?_, ?_, ⟨_, rfl⟩, ⟨_, rfl⟩, ⟨_, rfl⟩⟩
  · intro h1 h2
    simp [parseForecastDays, not_lt.mpr h1, not_lt.mpr h2]
  · rintro (h | h)
    · refine ⟨"Number must be greater than or equal to 1", ?_⟩
      simp [parseForecastDays, h]
    · refine ⟨"Number must be less than or equal to 16", ?_⟩
      have h1 : ¬q < 1 := by linarith
      simp [parseForecastDays, h1, h]

/-- Witness for C8 (amended): the default on omission, acceptance at 3,
rejection at 0, 17, and at a string argument. -/
theorem forecast_days_validation_witness :
    parseForecastDays none = Except.ok 3
    ∧ parseForecastDays (some (JsonPrim.num 3)) = Except.ok 3
    ∧ (∃ e, parseForecastDays (some (JsonPrim.num 0)) = Except.error e)
    ∧ (∃ e, parseForecastDays (some (JsonPrim.num 17)) = Except.error e)
    ∧ (∃ e, parseForecastDays (some (JsonPrim.str "three")) = Except.error e) :=
  ⟨(forecast_days_validation 3 "three" true).1,
   (forecast_days_validation 3 "three" true).2.1 (by norm_num) (by norm_num),
   (forecast_days_validation 0 "three" true).2.2.1 (Or.inl (by norm_num)),
   (forecast_days_validation 17 "three" true).2.2.1 (Or.inr (by norm_num)),
   (forecast_days_validation 3 "three" true).2.2.2.1⟩

/-- Claim C1: no handler propagates a non-validation failure: on every
failure outcome (division by zero, invalid timezone, thrown fetch, non-2xx
status, unparseable body, missing credential, failed image call) the handler
returns an ordinary `ToolResult` whose single content item is a text message
carrying the `오류:` error marker.  The embedding's handlers are total
functions into `ToolResult`, so no failure escapes the boundary at all. -/
theorem error_containment (a b : ℚ) (tz : String) (query : String)
    (gfetch : FetchResult (List GeocodeRecord)) (lat lon fd steps : ℚ)
    (wfetch : FetchResult WeatherData) (prompt : String)
    (hfToken : Option String) (call : Except JsError (List Nat))
    (e : JsError) :
    (b = 0 → IsErrorResult (calcHandler a b Operator.div))
    ∧ IsErrorResult (nowHandler tz none)
    ∧ (fetchFailed gfetch = true → IsErrorResult (geocodeHandler query gfetch))
    ∧ (fetchFailed wfetch = true →
        IsErrorResult (weatherHandler lat lon fd wfetch))
    ∧ (tokenMissing hfToken = true →
        IsErrorResult (generateImageHandler prompt steps hfToken call).result)
    ∧ IsErrorResult
        (generateImageHandler prompt steps hfToken (Except.error e)).result := by
  refine ⟨?_, ?_, ?_, ?_, ?_, ?_⟩
  · rintro rfl
    exact ⟨" 0으로 나눌 수 없습니다.", rfl⟩
  · exact ⟨" \x27" ++ (tz
      ++ "\x27은(는) 유효하지 않은 타임존입니다. IANA 타임존 형식을 사용해주세요. (예: Asia/Seoul, America/New_York)"),
      rfl⟩
  · intro hf
    cases gfetch with
    | failure e2 => exact ⟨" 지오코딩 실패 - " ++ e2.toMessage, rfl⟩
    | response status body =>
        by_cases hs : responseOk status = true
        · cases body with
          | error e2 =>
              refine ⟨" 지오코딩 실패 - " ++ e2.toMessage, ?_⟩
              simp only [geocodeHandler]
              rw [if_pos hs]
              rfl
          | ok data =>
              exfalso
              simp [fetchFailed, hs] at hf
        · refine ⟨" 지오코딩 실패 - " ++ ("API 요청 실패: " ++ toString status), ?_⟩
          simp only [geocodeHandler]
          rw [if_neg hs]
          rfl
  · intro hf
    cases wfetch with
    | failure e2 => exact ⟨" 날씨 정보를 가져올 수 없습니다 - " ++ e2.toMessage, rfl⟩
    | response status body =>
        by_cases hs : responseOk status = true
        · cases body with
          | error e2 =>
              refine ⟨" 날씨 정보를 가져올 수 없습니다 - " ++ e2.toMessage, ?_⟩
              simp only [weatherHandler]
              rw [if_pos hs]
              rfl
          | ok data =>
              exfalso
              simp [fetchFailed, hs] at hf
        · refine ⟨" 날씨 정보를 가져올 수 없습니다 - "
            ++ ("API 요청 실패: " ++ toString status), ?_⟩
          simp only [weatherHandler]
          rw [if_neg hs]
          rfl
  · intro ht
    refine ⟨" HF_TOKEN 환경변수가 설정되지 않았습니다. HuggingFace API를 사용하려면 HF_TOKEN 환경변수를 설정해주세요.", ?_⟩
    simp only [generateImageHandler]
    rw [if_pos ht]
    rfl
  · by_cases ht : tokenMissing hfToken = true
    · refine ⟨" HF_TOKEN 환경변수가 설정되지 않았습니다. HuggingFace API를 사용하려면 HF_TOKEN 환경변수를 설정해주세요.", ?_⟩
      simp only [generateImageHandler]
      rw [if_pos ht]
      rfl
    · refine ⟨" 이미지 생성 실패 - " ++ e.toMessage, ?_⟩
      simp only [generateImageHandler]
      rw [if_neg ht]
      rfl

/-- Witness for C1: error containment at concrete failure inputs for each
handler with a failure path. -/
theorem error_containment_witness :
    IsErrorResult (calcHandler (1 : ℚ) 0 Operator.div)
    ∧ IsErrorResult (nowHandler "Mars/Olympus" none)
    ∧ IsErrorResult (geocodeHandler "Seoul" (FetchResult.response 500 (Except.ok [])))
    ∧ IsErrorResult (weatherHandler 37 127 3 (FetchResult.failure (JsError.error "boom")))
    ∧ IsErrorResult (generateImageHandler "a cat" 4 none (Except.ok [])).result
    ∧ IsErrorResult
        (generateImageHandler "a cat" 4 (some "tok") (Except.error JsError.nonError)).result := by
  have h1 := error_containment 1 0 "Mars/Olympus" "Seoul"
    (FetchResult.response 500 (Except.ok [])) 37 127 3 4
    (FetchResult.failure (JsError.error "boom")) "a cat" none (Except.ok [])
    JsError.nonError
  have h2 := error_containment 1 0 "Mars/Olympus" "Seoul"
    (FetchResult.response 500 (Except.ok [])) 37 127 3 4
    (FetchResult.failure (JsError.error "boom")) "a cat" (some "tok")
    (Except.error JsError.nonError) JsError.nonError
  exact ⟨h1.1 rfl, h1.2.1, h1.2.2.1 rfl, h1.2.2.2.1 rfl, h1.2.2.2.2.1 rfl,
    h2.2.2.2.2.2⟩

/-- Claim C3: the geocode handler maps an empty upstream array to the
no-result text (which is not error-marked), a non-empty array to the
three-line block built from the first record only, and a non-2xx status to
the error text carrying that status. -/
theorem geocode_edge_cases (query : String) (r : GeocodeRecord)
    (rest : List GeocodeRecord) (status : Nat)
    (body : Except JsError (List GeocodeRecord)) :
    geocodeHandler query (FetchResult.response 200 (Except.ok [])) =
      { content := [ContentItem.text (geocodeNoResultText query)] }
    ∧ ¬IsErrorResult (geocodeHandler query (FetchResult.response 200 (Except.ok [])))
    ∧ geocodeHandler query (FetchResult.response 200 (Except.ok (r :: rest))) =
      { content := [ContentItem.text (geocodeSuccessText r)] }
    ∧ (responseOk status = false →
        geocodeHandler query (FetchResult.response status body) =
          { content := [ContentItem.text
              (geocodeErrorText ("API 요청 실패: " ++ toString status))] }) := by
  refine ⟨rfl, ?_, rfl, ?_⟩
  · rintro ⟨rest2, h⟩
    have h2 : [ContentItem.text (geocodeNoResultText query)]
        = [ContentItem.text ("오류:" ++ rest2)] := h
    have h3 : geocodeNoResultText query = "오류:" ++ rest2 := by
      simpa using h2
    have hd := congrArg String.data h3
    simp only [geocodeNoResultText, String.data_append] at hd
    simp at hd
  · intro hs
    simp only [geocodeHandler]
    rw [if_neg (by simp [hs])]

/-- Witness for C3: a 500 upstream response on a concrete query yields the
error text carrying the status. -/
theorem geocode_edge_cases_witness :
    geocodeHandler "Atlantis" (FetchResult.response 500 (Except.ok [])) =
      { content := [ContentItem.text
          (geocodeErrorText ("API 요청 실패: " ++ toString 500))] } :=
  (geocode_edge_cases "Atlantis" ⟨"x", "0", "0"⟩ [] 500 (Except.ok [])).2.2.2 rfl

/-- Claim C4: with `forecast_days = 3` and a successful upstream response
carrying three forecast days, the weather output is the header block followed
by exactly the three daily lines for indices 0, 1, 2 of the upstream arrays,
in that order. -/
theorem weather_three_daily_lines (lat lon : ℚ) (data : WeatherData)
    (h : data.daily.time.length = 3) :
    weatherHandler lat lon 3 (FetchResult.response 200 (Except.ok data)) =
      { content := [ContentItem.text (String.intercalate "\n"
          (headerLines lat lon 3 data
            ++ [dailyLine data.daily data.daily_units 0,
                dailyLine data.daily data.daily_units 1,
                dailyLine data.daily data.daily_units 2]))] } := by
  simp only [weatherHandler]
  rw [if_pos (show responseOk 200 = true from rfl), h]
  rfl

/-- Witness for C4: the three-day sample response renders as the header plus
its three daily lines. -/
theorem weather_three_daily_lines_witness :
    weatherHandler 37 127 3 (FetchResult.response 200 (Except.ok sampleWeatherData)) =
      { content := [ContentItem.text (String.intercalate "\n"
          (headerLines 37 127 3 sampleWeatherData
            ++ [dailyLine sampleWeatherData.daily sampleWeatherData.daily_units 0,
                dailyLine sampleWeatherData.daily sampleWeatherData.daily_units 1,
                dailyLine sampleWeatherData.daily sampleWeatherData.daily_units 2]))] } :=
  weather_three_daily_lines 37 127 sampleWeatherData rfl

/-- Claim C5: a weather code found in the fixed table renders as its
description, a code missing from the table renders through the
`알 수 없음 ({code})` fallback instead of failing, and the handler routes both
the current code (header line 3) and each daily code through this mapping. -/
theorem weather_code_table (code : ℚ) (desc : String) (lat lon fd : ℚ)
    (data : WeatherData) (i : Nat) (c : ℚ) :
    (weatherCodes.lookup code = some desc → getWeatherDesc code = desc)
    ∧ (weatherCodes.lookup code = none →
        getWeatherDesc code = "알 수 없음 (" ++ toString code ++ ")")
    ∧ (headerLines lat lon fd data)[3]? =
        some ("  상태: " ++ getWeatherDesc data.current.weather_code)
    ∧ (data.daily.weather_code[i]? = some c →
        weatherDescAt data.daily.weather_code i = getWeatherDesc c) := by
  refine ⟨?_, ?_, rfl, ?_⟩
  · intro h
    simp [getWeatherDesc, h]
  · intro h
    simp [getWeatherDesc, h]
  · intro h
    simp [weatherDescAt, h]

/-- Witness for C5: code 95 is in the table, code 100 is not, and the sample
response's second daily code routes through the same mapping. -/
theorem weather_code_table_witness :
    getWeatherDesc 95 = "뇌우 ⛈️"
    ∧ getWeatherDesc 100 = "알 수 없음 (" ++ toString (100 : ℚ) ++ ")"
    ∧ weatherDescAt sampleWeatherData.daily.weather_code 1 = getWeatherDesc 61 := by
  refine ⟨?_, ?_, ?_⟩
  · exact (weather_code_table 95 "뇌우 ⛈️" 0 0 0 sampleWeatherData 1 61).1 (by decide)
  · exact (weather_code_table 100 "" 0 0 0 sampleWeatherData 1 61).2.1 (by decide)
  · exact (weather_code_table 61 "" 0 0 0 sampleWeatherData 1 61).2.2.2 rfl

end MCP
